import Mathlib

/- Verification of the attribute classification / extraction engine and the pluck engine
   of the sa2schema library, against a shallow embedding of the Python source
   (sa2schema/attribute_info.py, sa2schema/info/sa_extract_info.py, sa2schema/filter.py,
   sa2schema/defs.py, sa2schema/pluck.py). -/

namespace Sa2Schema

/- ### Python type expressions

A small syntactic universe of Python `typing` type expressions, as manipulated by
attribute_info.py.  `Optional[X]` is represented the way `typing` represents it:
`Union[X, None]`, i.e. `unionT` with `noneT` among the arguments.  Note that in
Python `typing.Optional[typing.Any]` is `Union[Any, None]`, which is a distinct
object from `Any` itself. -/

inductive PyType where
  | anyT
  | noneT
  | intT
  | strT
  | boolT
  | klass (name : String)
  | listT (t : PyType)
  | setT (t : PyType)
  | dictT (k v : PyType)
  | unionT (ts : List PyType)

mutual

/-- Structural equality test for `PyType` (written by hand because of the nested list). -/
def PyType.beq : PyType → PyType → Bool
  | .anyT, .anyT => true
  | .noneT, .noneT => true
  | .intT, .intT => true
  | .strT, .strT => true
  | .boolT, .boolT => true
  | .klass a, .klass b => a == b
  | .listT a, .listT b => PyType.beq a b
  | .setT a, .setT b => PyType.beq a b
  | .dictT ka va, .dictT kb vb => PyType.beq ka kb && PyType.beq va vb
  | .unionT ts, .unionT us => PyType.beqList ts us
  | _, _ => false

/-- Pointwise equality test for lists of `PyType`. -/
def PyType.beqList : List PyType → List PyType → Bool
  | [], [] => true
  | a :: as1, b :: bs => PyType.beq a b && PyType.beqList as1 bs
  | _, _ => false

end

instance : BEq PyType := ⟨PyType.beq⟩

/-- The Python identity test `t is Any`. -/
def PyType.isAny : PyType → Bool
  | .anyT => true
  | _ => false

/-- Wrapping a type into `typing.Optional`: `Optional[X] = Union[X, None]`,
with the flattening/absorption that `typing` performs on unions. -/
def optionalOf (t : PyType) : PyType :=
  match t with
  | .unionT ts => if ts.contains .noneT then .unionT ts else .unionT (ts ++ [.noneT])
  | .noneT => .noneT
  | t => .unionT [t, .noneT]

/-- Embeds `is_Optional_type` (attribute_info.py): a type is "Optional" when it is `Any`,
or a `Union` that has `NoneType` among its arguments. -/
def is_Optional_type : PyType → Bool
  | .anyT => true
  | .unionT ts => ts.contains .noneT
  | _ => false

/-- Embeds `unwrap_Optional_type` (attribute_info.py): given `Union[..., None]`,
drop the `NoneType` argument; a single remaining argument stands alone. -/
def unwrap_Optional_type : PyType → PyType
  | .unionT ts =>
    match ts.filter (fun a => !(a == PyType.noneT)) with
    | [a] => a
    | args => .unionT args
  | t => t

/- ### SqlAlchemy storage types -/

/-- An SqlAlchemy `TypeEngine`: either its `python_type` is available, or reading it
raises `NotImplementedError`. -/
inductive SAType where
  | typed (t : PyType)
  | unmappable

/-- Embeds `get_type_from_sqlalchemy_type` (attribute_info.py). -/
def get_type_from_sqlalchemy_type : SAType → PyType
  | .typed t => t
  | .unmappable => .anyT

/- ### AttributeType flags (defs.py)

The `AttributeType` flags, with the bit values assigned by `enum.auto()` in
declaration order.  `PROPERTY_RW` and `HYBRID_PROPERTY_RW` are declared unions
of two primitive bits. -/

namespace AttributeType

def NONE : Nat := 0
def COLUMN : Nat := 1
def PROPERTY_R : Nat := 2
def PROPERTY_W : Nat := 4
def PROPERTY_RW : Nat := PROPERTY_R ||| PROPERTY_W
def HYBRID_PROPERTY_R : Nat := 8
def HYBRID_PROPERTY_W : Nat := 16
def HYBRID_PROPERTY_RW : Nat := HYBRID_PROPERTY_R ||| HYBRID_PROPERTY_W
def RELATIONSHIP : Nat := 32
def DYNAMIC_LOADER : Nat := 64
def ASSOCIATION_PROXY : Nat := 128
def COMPOSITE : Nat := 256
def EXPRESSION : Nat := 512
def HYBRID_METHOD : Nat := 1024
def APPLICATION_CUSTOM : Nat := 2048
def ALL_COLUMNS : Nat := COLUMN ||| COMPOSITE ||| EXPRESSION
def ALL_PROPERTIES : Nat := PROPERTY_RW ||| HYBRID_PROPERTY_RW
def ALL_LOCAL_FIELDS : Nat := ALL_COLUMNS ||| ALL_PROPERTIES
def ALL_RELATIONSHIPS : Nat := RELATIONSHIP ||| ASSOCIATION_PROXY
def ALL : Nat := ALL_LOCAL_FIELDS ||| ALL_RELATIONSHIPS ||| DYNAMIC_LOADER ||| HYBRID_METHOD ||| APPLICATION_CUSTOM

end AttributeType

/-- A flag value consisting of exactly one primitive bit. -/
def isSingleBit (n : Nat) : Bool := n != 0 && (n &&& (n - 1)) == 0

/- ### Default values -/

/-- A resolved default value as stored on a descriptor: the `NOT_PROVIDED` sentinel,
Python `None`, or a concrete value (opaquely represented by a string). -/
inductive DefaultVal where
  | notProvided
  | pyNone
  | value (v : String)
deriving DecidableEq

/-- A bare default as declared on a `Column`: `None`, a callable, a SQL expression
(`ColumnElement`), a `Selectable`, or a concrete plain value. -/
inductive BareDefault where
  | pyNone
  | callableV
  | columnElement
  | selectable
  | value (v : String)
deriving DecidableEq

/-- The raw `attr.default` of a column attribute: Python `None` (no default declared),
a storage-layer `ColumnDefault` wrapper around a bare value, or a bare value. -/
inductive RawDefault where
  | pyNone
  | columnDefault (arg : BareDefault)
  | bare (v : BareDefault)
deriving DecidableEq

/- ### Collection classes -/

/-- A default-value factory (the `default_factory` descriptor field):
the builtin `list`, `set` or `dict` constructor. -/
inductive Factory where
  | listF
  | setF
  | dictF
deriving DecidableEq

/-- A relationship `collection_class`: the recognized `list`/`set`/`dict` classes, or an
unrecognized callable.  For an unrecognized callable, `instantiated = some c` means
calling it with no arguments yields a value whose type classifies as `c`;
`instantiated = none` means the call raises. -/
inductive CollClass where
  | listC
  | setC
  | dictC
  | callableC (instantiated : Option CollClass)

/-- Embeds `wrap_type_into_collection_class` (attribute_info.py): wrap a value type into
a collection, returning the default factory and the wrapped type.  An unrecognized
callable is instantiated with no arguments and the result type is classified; if that
fails, a `Union[List[value_type], Dict[Any, value_type]]` is produced, with no error. -/
def wrap_type_into_collection_class (value_type : PyType) : CollClass → Option Factory × PyType
  | .listC => (some .listF, .listT value_type)
  | .setC => (some .setF, .setT value_type)
  | .dictC => (some .dictF, .dictT .anyT value_type)
  | .callableC (some c) => wrap_type_into_collection_class value_type c
  | .callableC none => (none, .unionT [.listT value_type, .dictT .anyT value_type])

/- ### Python errors

The exceptions that the embedded code can raise, unified into one type. -/

inductive PyError where
  | typeError (msg : String)
  | keyError (k : String)
  | valueError (msg : String)
  | attributeError (k : String)
  | assertionError (msg : String)
deriving DecidableEq

/- ### AttributeInfo (attribute_info.py)

The base descriptor shape.  The raw `attribute` handle itself is omitted from the
embedding (it is an opaque reference back to the input), as is the
`loads_attributes` extra of `PropertyInfo` (advisory data read from property.py,
not touched by any extraction logic modelled here). -/

structure AttributeInfoS where
  attribute_type : Nat
  nullable : Bool
  readable : Bool
  writable : Bool
  value_type : PyType
  default : DefaultVal
  default_factory : Option Factory
  doc : Option String

/-- Embeds `AttributeInfo.final_value_type`: `Optional[value_type]` when the descriptor
is nullable and its value type is not `Any`; otherwise the value type unchanged. -/
def AttributeInfoS.final_value_type (i : AttributeInfoS) : PyType :=
  if i.nullable && !i.value_type.isAny then optionalOf i.value_type
  else i.value_type

/- ### ColumnInfo -/

/-- The parts of a mapped column attribute that `ColumnInfo.extract` reads:
`column.nullable`, `attr.default`, the storage type, and `attr.property.doc`. -/
structure ColumnAttr where
  nullable : Bool
  default : RawDefault
  sa_type : SAType
  doc : Option String

/-- The default-resolution steps of `ColumnInfo.extract`: unwrap a `ColumnDefault`
wrapper to its bare `arg`; a callable, `ColumnElement` or `Selectable` default is not
supported and becomes `NOT_PROVIDED`; a `None` default on a non-nullable column
becomes `NOT_PROVIDED`. -/
def resolveColumnDefault (nullable : Bool) (d : RawDefault) : DefaultVal :=
  let bare : BareDefault :=
    match d with
    | .pyNone => .pyNone
    | .columnDefault arg => arg
    | .bare v => v
  match bare with
  | .callableV => .notProvided
  | .columnElement => .notProvided
  | .selectable => .notProvided
  | .pyNone => if nullable then .pyNone else .notProvided
  | .value v => .value v

/-- Embeds `ColumnInfo.extract` (attribute_info.py). -/
def ColumnInfo.extract (attr : ColumnAttr) : AttributeInfoS :=
  { attribute_type := AttributeType.COLUMN
    nullable := attr.nullable
    readable := true
    writable := true
    value_type := get_type_from_sqlalchemy_type attr.sa_type
    default := resolveColumnDefault attr.nullable attr.default
    default_factory := none
    doc := attr.doc }

/- ### PropertyInfo -/

/-- The parts of a `@property` that `PropertyInfo.extract` reads.
`fget = none` means no getter; `fget = some none` a getter without a return
annotation; `fget = some (some t)` a getter annotated with return type `t`.
`fset = none` means no setter; `fset = some d` a setter whose first argument
has declared default `d` (or none). -/
structure PropertyAttr where
  fget : Option (Option PyType)
  fset : Option (Option DefaultVal)
  doc : Option String

/-- Embeds `get_function_return_type`: `get_type_hints(function).get('return', Any)`;
`get_type_hints(None)` (no getter) raises a `TypeError`. -/
def get_function_return_type : Option (Option PyType) → Except PyError PyType
  | none => .error (.typeError "None is not a module, class, method, or function.")
  | some none => .ok .anyT
  | some (some t) => .ok t

/-- Embeds `PropertyInfo.extract` (attribute_info.py). -/
def PropertyInfo.extract (attr : PropertyAttr) : Except PyError AttributeInfoS := do
  let readable := attr.fget.isSome
  let writable := attr.fset.isSome
  let value_type0 ← get_function_return_type attr.fget
  let nullable := is_Optional_type value_type0
  let value_type := if nullable then unwrap_Optional_type value_type0 else value_type0
  let default : DefaultVal :=
    match attr.fset with
    | some (some d) => d
    | _ => .notProvided
  let attribute_type ←
    if readable && writable then pure AttributeType.PROPERTY_RW
    else if readable then pure AttributeType.PROPERTY_R
    else if writable then pure AttributeType.PROPERTY_W
    else .error (.assertionError "what sort of weird property is that??!")
  pure { attribute_type := attribute_type
         nullable := nullable
         readable := readable
         writable := writable
         value_type := value_type
         default := default
         default_factory := none
         doc := attr.doc }

/-- Embeds `HybridPropertyInfo.extract`: same as `PropertyInfo.extract`, with the
attribute type translated to the hybrid flags through a literal dictionary. -/
def HybridPropertyInfo.extract (attr : PropertyAttr) : Except PyError AttributeInfoS := do
  let info ← PropertyInfo.extract attr
  let t ←
    if info.attribute_type == AttributeType.PROPERTY_R then pure AttributeType.HYBRID_PROPERTY_R
    else if info.attribute_type == AttributeType.PROPERTY_W then pure AttributeType.HYBRID_PROPERTY_W
    else if info.attribute_type == AttributeType.PROPERTY_RW then pure AttributeType.HYBRID_PROPERTY_RW
    else .error (.keyError "attribute_type")
  pure { info with attribute_type := t }

/- ### HybridMethodInfo -/

/-- The parts of a `@hybrid_method` that `HybridMethodInfo.extract` reads:
the return annotation of `attr.func` (none when unannotated) and its docstring. -/
structure HybridMethodAttr where
  ret : Option PyType
  doc : Option String

/-- Embeds `HybridMethodInfo.extract` (attribute_info.py).  Unlike `PropertyInfo`,
the value type is not unwrapped when it is Optional. -/
def HybridMethodInfo.extract (attr : HybridMethodAttr) : AttributeInfoS :=
  let value_type := match attr.ret with | some t => t | none => .anyT
  { attribute_type := AttributeType.HYBRID_METHOD
    nullable := is_Optional_type value_type
    readable := true
    writable := false
    value_type := value_type
    default := .notProvided
    default_factory := none
    doc := attr.doc }

/- ### ColumnExpressionInfo -/

/-- The parts of a `column_property()` expression attribute that
`ColumnExpressionInfo.extract` reads. -/
structure ExpressionAttr where
  sa_type : SAType
  doc : Option String

/-- Embeds `ColumnExpressionInfo.extract` (attribute_info.py). -/
def ColumnExpressionInfo.extract (attr : ExpressionAttr) : AttributeInfoS :=
  { attribute_type := AttributeType.EXPRESSION
    nullable := true
    readable := true
    writable := false
    value_type := get_type_from_sqlalchemy_type attr.sa_type
    default := .notProvided
    default_factory := none
    doc := attr.doc }

/- ### CompositeInfo -/

/-- The parts of a `composite()` attribute that `CompositeInfo.extract` reads. -/
structure CompositeAttr where
  composite_class : String
  doc : Option String

/-- Embeds `CompositeInfo.extract` (attribute_info.py). -/
def CompositeInfo.extract (attr : CompositeAttr) : AttributeInfoS :=
  { attribute_type := AttributeType.COMPOSITE
    nullable := false
    readable := true
    writable := true
    value_type := .klass attr.composite_class
    default := .notProvided
    default_factory := none
    doc := attr.doc }

/- ### RelationshipInfo -/

/-- The parts of a `relationship()` attribute that `RelationshipInfo.extract` reads:
the target model class (`prop.mapper.class_`, named), `prop.uselist`,
`prop.collection_class` (none when not declared), `prop.viewonly` and `prop.doc`. -/
structure RelAttr where
  target : String
  uselist : Bool
  collection_class : Option CollClass
  viewonly : Bool
  doc : Option String

/-- The `RelationshipInfo` descriptor: the base fields plus the target model,
the `uselist` flag and the collection class. -/
structure RelationshipInfoS where
  attribute_type : Nat
  nullable : Bool
  readable : Bool
  writable : Bool
  value_type : PyType
  default : DefaultVal
  default_factory : Option Factory
  doc : Option String
  target_model : String
  uselist : Bool
  collection_class : Option CollClass

/-- Embeds `RelationshipInfo.final_value_type`: a `uselist` value is already wrapped
with a collection class and is returned as is; a non-`uselist` value goes through the
base optional-wrapping rule. -/
def RelationshipInfoS.final_value_type (i : RelationshipInfoS) : PyType :=
  if i.uselist then i.value_type
  else if i.nullable && !i.value_type.isAny then optionalOf i.value_type
  else i.value_type

/-- Embeds `RelationshipInfo._wrap_value_type_with_collection_class`: wrap only when
`uselist` (in which case `collection_class` was defaulted to `list` and is present). -/
def relWrapValueType (uselist : Bool) (collection_class : Option CollClass)
    (value_type : PyType) : Option Factory × PyType :=
  if uselist then
    wrap_type_into_collection_class value_type (collection_class.getD .listC)
  else (none, value_type)

/-- Embeds `RelationshipInfo.extract` (attribute_info.py). -/
def RelationshipInfo.extract (attr : RelAttr) : RelationshipInfoS :=
  let target_model := attr.target
  let value_type0 := PyType.klass attr.target
  let nullable := !attr.uselist
  let collection_class : Option CollClass :=
    match attr.collection_class with
    | some c => some c
    | none => if attr.uselist then some .listC else none
  let wrapped := relWrapValueType attr.uselist collection_class value_type0
  { attribute_type := AttributeType.RELATIONSHIP
    nullable := nullable
    readable := true
    writable := !attr.viewonly
    value_type := wrapped.2
    default := if nullable then .pyNone else .notProvided
    default_factory := wrapped.1
    doc := attr.doc
    target_model := target_model
    uselist := attr.uselist
    collection_class := collection_class }

/-- Embeds `DynamicLoaderInfo.extract`: `RelationshipInfo.extract` with the attribute
type overwritten. -/
def DynamicLoaderInfo.extract (attr : RelAttr) : RelationshipInfoS :=
  let info := RelationshipInfo.extract attr
  { info with attribute_type := AttributeType.DYNAMIC_LOADER }

/- ### AssociationProxyInfo -/

/-- The parts of an `association_proxy()` attribute that `AssociationProxyInfo.extract`
reads: the target class, the remote attribute storage type, the declared collection
class, and whether the proxy is scalar. -/
structure AssocProxyAttr where
  target_class : String
  remote_attr_type : SAType
  collection_class : Option CollClass
  scalar : Bool

/-- The `AssociationProxyInfo` descriptor. -/
structure AssociationProxyInfoS where
  attribute_type : Nat
  nullable : Bool
  readable : Bool
  writable : Bool
  value_type : PyType
  default : DefaultVal
  default_factory : Option Factory
  doc : Option String
  target_model : String
  collection_class : Option CollClass

/-- Embeds `AssociationProxyInfo._wrap_value_type_with_collection_class`: a missing or
dict-like collection class produces `Dict[value_type, target_model]`, anything else is
wrapped by `wrap_type_into_collection_class`. -/
def assocProxyWrap (target_model : String) (value_type : PyType)
    (collection_class : Option CollClass) : Option Factory × PyType :=
  match collection_class with
  | none => (some .dictF, .dictT value_type (.klass target_model))
  | some .dictC => (some .dictF, .dictT value_type (.klass target_model))
  | some c => wrap_type_into_collection_class value_type c

/-- Embeds `AssociationProxyInfo.extract` (attribute_info.py).  Note
`collection_class = attr.collection_class or dict`, so the stored collection class is
never `None`. -/
def AssociationProxyInfo.extract (attr : AssocProxyAttr) : AssociationProxyInfoS :=
  let collection_class : CollClass := attr.collection_class.getD .dictC
  let value_type0 := get_type_from_sqlalchemy_type attr.remote_attr_type
  let target_model := attr.target_class
  let wrapped := assocProxyWrap target_model value_type0 (some collection_class)
  { attribute_type := AttributeType.ASSOCIATION_PROXY
    nullable := attr.scalar
    readable := true
    writable := false
    value_type := wrapped.2
    default := .notProvided
    default_factory := wrapped.1
    doc := none
    target_model := target_model
    collection_class := some collection_class }

/- ### The extraction registry (info/sa_extract_info.py)

A raw model attribute as seen by the registry: one constructor per underlying
SqlAlchemy mechanism that the `matches()` predicates test with `isinstance`,
plus `unsupported` for an attribute that no registered strategy claims. -/

inductive RawAttr where
  | column (c : ColumnAttr)
  | prop (p : PropertyAttr)
  | hybridProp (p : PropertyAttr)
  | hybridMethod (m : HybridMethodAttr)
  | expression (e : ExpressionAttr)
  | composite (c : CompositeAttr)
  | relationship (r : RelAttr)
  | dynamicLoader (r : RelAttr)
  | assocProxy (a : AssocProxyAttr)
  | unsupported

/-- A descriptor of any concrete variant, as returned by the registry. -/
inductive AnyInfo where
  | base (i : AttributeInfoS)
  | rel (i : RelationshipInfoS)
  | assoc (i : AssociationProxyInfoS)

/-- The registered extractor strategies (the concrete `AttributeInfo` subclasses). -/
inductive InfoClass where
  | columnI
  | hybridPropertyI
  | propertyI
  | hybridMethodI
  | columnExpressionI
  | compositeI
  | dynamicLoaderI
  | relationshipI
  | associationProxyI
deriving DecidableEq

/-- Embeds `AttributeInfo.all_implementations()`: the recursive
`get_deep_subclasses` walk, which yields the subclasses of a class before the
class itself, over the declaration order of attribute_info.py. -/
def all_implementations : List InfoClass :=
  [ .columnI, .hybridPropertyI, .propertyI, .hybridMethodI, .columnExpressionI,
    .compositeI, .dynamicLoaderI, .relationshipI, .associationProxyI ]

/-- Embeds each strategy's `extracts()` declaration. -/
def InfoClass.extracts : InfoClass → Nat
  | .columnI => AttributeType.COLUMN
  | .hybridPropertyI =>
      AttributeType.HYBRID_PROPERTY_R ||| AttributeType.HYBRID_PROPERTY_W |||
      AttributeType.HYBRID_PROPERTY_RW
  | .propertyI =>
      AttributeType.PROPERTY_R ||| AttributeType.PROPERTY_W ||| AttributeType.PROPERTY_RW
  | .hybridMethodI => AttributeType.HYBRID_METHOD
  | .columnExpressionI => AttributeType.EXPRESSION
  | .compositeI => AttributeType.COMPOSITE
  | .dynamicLoaderI => AttributeType.DYNAMIC_LOADER
  | .relationshipI => AttributeType.RELATIONSHIP
  | .associationProxyI => AttributeType.ASSOCIATION_PROXY

/-- Embeds each strategy's `matches(attr, types)` predicate.  Only the property
strategies consult `types`; the others test the attribute mechanism alone. -/
def InfoClass.matches : InfoClass → RawAttr → Nat → Bool
  | .columnI, .column _, _ => true
  | .hybridPropertyI, .hybridProp p, types =>
      (types &&& AttributeType.HYBRID_PROPERTY_R != 0 && p.fget.isSome) ||
      (types &&& AttributeType.HYBRID_PROPERTY_W != 0 && p.fset.isSome)
  | .propertyI, .prop p, types =>
      (types &&& AttributeType.PROPERTY_R != 0 && p.fget.isSome) ||
      (types &&& AttributeType.PROPERTY_W != 0 && p.fset.isSome)
  | .hybridMethodI, .hybridMethod _, _ => true
  | .columnExpressionI, .expression _, _ => true
  | .compositeI, .composite _, _ => true
  | .dynamicLoaderI, .dynamicLoader _, _ => true
  | .relationshipI, .relationship _, _ => true
  | .associationProxyI, .assocProxy _, _ => true
  | _, _, _ => false

/-- Embeds each strategy's `extract(attr)`.  Applying a strategy to an attribute of a
different mechanism is modelled as a `TypeError` (the Python code would fail reading
the attribute); the registry only calls `extract` after `matches` succeeded. -/
def InfoClass.extract : InfoClass → RawAttr → Except PyError AnyInfo
  | .columnI, .column c => .ok (.base (ColumnInfo.extract c))
  | .hybridPropertyI, .hybridProp p => (HybridPropertyInfo.extract p).map .base
  | .propertyI, .prop p => (PropertyInfo.extract p).map .base
  | .hybridMethodI, .hybridMethod m => .ok (.base (HybridMethodInfo.extract m))
  | .columnExpressionI, .expression e => .ok (.base (ColumnExpressionInfo.extract e))
  | .compositeI, .composite c => .ok (.base (CompositeInfo.extract c))
  | .dynamicLoaderI, .dynamicLoader r => .ok (.rel (DynamicLoaderInfo.extract r))
  | .relationshipI, .relationship r => .ok (.rel (RelationshipInfo.extract r))
  | .associationProxyI, .assocProxy a => .ok (.assoc (AssociationProxyInfo.extract a))
  | _, _ => .error (.typeError "extractor applied to a mismatched attribute")

/- ### Model info extraction (info/sa_extract_info.py) -/

/-- A mapped model class: its identity (classes are cache keys by identity) and the
ordered name-to-raw-attribute mapping that `all_sqlalchemy_model_attributes` returns
for it. -/
structure SAModel where
  id : String
  attrs : List (String × RawAttr)

/-- The pair list produced by the dict comprehension inside `_sa_model_info`:
for every attribute, every enabled strategy whose `matches` succeeds contributes
an entry under the attribute name. -/
def modelInfoPairs (info_classes : List InfoClass) (types : Nat) :
    List (String × RawAttr) → Except PyError (List (String × AnyInfo))
  | [] => .ok []
  | (name, a) :: rest => do
    let here ← (info_classes.filter (fun ic => ic.matches a types)).mapM
      (fun ic => do pure (name, ← ic.extract a))
    let there ← modelInfoPairs info_classes types rest
    .ok (here ++ there)

/-- Assignment into a Python dict: an existing key is overwritten in place,
a new key is appended. -/
def dictInsert (d : List (String × AnyInfo)) (kv : String × AnyInfo) :
    List (String × AnyInfo) :=
  if d.any (fun e => e.1 == kv.1) then
    d.map (fun e => if e.1 == kv.1 then kv else e)
  else d ++ [kv]

/-- Collapse a pair list into a Python dict (insertion order, later values overwrite). -/
def dictify (ps : List (String × AnyInfo)) : List (String × AnyInfo) :=
  ps.foldl dictInsert []

/-- Embeds the body of `_sa_model_info` (info/sa_extract_info.py): select the enabled
strategies by intersecting `extracts()` with `types`, then run the dict comprehension
over every model attribute.  An attribute no strategy claims is silently dropped. -/
def sa_model_info_uncached (M : SAModel) (types : Nat) :
    Except PyError (List (String × AnyInfo)) :=
  let info_classes := all_implementations.filter (fun ic => ic.extracts &&& types != 0)
  (modelInfoPairs info_classes types M.attrs).map dictify

/-- The `lru_cache` on `_sa_model_info`, keyed by the model class identity and the
requested types. -/
structure InfoCache where
  entries : List ((String × Nat) × List (String × AnyInfo))

/-- Embeds the cached `_sa_model_info`: a hit returns the stored mapping, a miss runs
the extraction and stores the result (a raised error is not cached). -/
def sa_model_info_cached (cache : InfoCache) (M : SAModel) (types : Nat) :
    Except PyError (List (String × AnyInfo)) × InfoCache :=
  match cache.entries.lookup (M.id, types) with
  | some r => (.ok r, cache)
  | none =>
    match sa_model_info_uncached M types with
    | .ok r => (.ok r, ⟨cache.entries ++ [((M.id, types), r)]⟩)
    | .error e => (.error e, cache)

/-- Embeds `sa_attribute_info` (info/sa_extract_info.py): look the attribute up in the
class dict, then try every registered strategy in turn (each queried with its own
`extracts()` as the requested kinds); if none claims it, the function raises -- the
source states `raise AttributeType(...)`, and calling the `Flag` with that message
string makes the enum constructor itself raise a `ValueError` carrying the message. -/
def sa_attribute_info (M : SAModel) (attribute_name : String) : Except PyError AnyInfo :=
  match M.attrs.lookup attribute_name with
  | none => .error (.keyError attribute_name)
  | some a => go all_implementations a
where
  go : List InfoClass → RawAttr → Except PyError AnyInfo
  | [], _ => .error (.valueError
      ("Attribute " ++ attribute_name ++ " has a type that is not currently supported"))
  | ic :: rest, attr =>
    if ic.matches attr ic.extracts then ic.extract attr else go rest attr

/- ### Field filters (filter.py)

A bound field filter, as obtained after `prepare_filter_function` / `for_model`:
the boolean constants (`True` / `False` or `None` inputs), a name list, a plain
callable, and the `EITHER` / `AND` / `NOT` combinators.  The model-dependent
presets (`PRIMARY_KEY`, `READABLE`, `BY_TYPE`, ...) become plain predicates once
bound, so they are covered by the `pred` constructor. -/

inductive Filter where
  | tt
  | ff
  | names (ns : List String)
  | pred (p : String → Bool)
  | EITHER (fs : List Filter)
  | AND (fs : List Filter)
  | NOT (fs : List Filter)

mutual

/-- The bound filter predicate: `EITHER` matches when any sub-filter matches, `AND`
when all do, and `NOT` negates the `AND` of its sub-filters (filter.py `__call__`). -/
def Filter.matches : Filter → String → Bool
  | .tt, _ => true
  | .ff, _ => false
  | .names ns, name => ns.contains name
  | .pred p, name => p name
  | .EITHER fs, name => Filter.anyMatches fs name
  | .AND fs, name => Filter.allMatches fs name
  | .NOT fs, name => !Filter.allMatches fs name

/-- `any(filter(name) for filter in prepared_filters)`. -/
def Filter.anyMatches : List Filter → String → Bool
  | [], _ => false
  | f :: rest, name => Filter.matches f name || Filter.anyMatches rest name

/-- `all(filter(name) for filter in prepared_filters)`. -/
def Filter.allMatches : List Filter → String → Bool
  | [], _ => true
  | f :: rest, name => Filter.matches f name && Filter.allMatches rest name

end

/- ### The pluck engine (pluck.py) -/

/-- Embeds the `Unloaded` policy enum of pluck.py. -/
inductive Unloaded where
  | RAISE
  | NONE
  | LAZY
  | LAZYWARN
  | SKIP
deriving DecidableEq

/-- The per-model data `sa_pluck` consults: `uselist_relationships(Model)` (the map
from relationship name to its `uselist` flag) and `descriptor_attributes(Model)` (the
names of descriptor attributes such as `@property`, pluckable only via `getattr`). -/
structure ModelMeta where
  relUselist : List (String × Bool)
  descriptors : List String

/-- A live Python value as seen by the pluck engine: `None`, scalars, a list, a plain
dict (JSON), or a mapped instance carrying its model data, its `instance_dict` (the
loaded attributes) and the attributes reachable through `getattr` (a name absent from
`getattrs` means `getattr` raises `AttributeError`). -/
inductive PValue where
  | vNone
  | vInt (n : Int)
  | vStr (s : String)
  | vList (items : List PValue)
  | vDict (entries : List (String × PValue))
  | vObj (meta : ModelMeta) (dict_ : List (String × PValue))
         (getattrs : List (String × PValue))

/-- A value of a plucking map: an integer flag, or a nested map for relationships
and JSON attributes. -/
inductive PluckVal where
  | flag (n : Nat)
  | nested (entries : List (String × PluckVal))

/-- The Python test `include == 0` (also true for `False`; an empty dict is not 0). -/
def includeIsZero : PluckVal → Bool
  | .flag n => n == 0
  | .nested _ => false

/-- Python truthiness of an include value (`not include` negates this):
a nonzero flag or a non-empty dict. -/
def includeTruthy : PluckVal → Bool
  | .flag n => n != 0
  | .nested es => !es.isEmpty

/-- `getattr(instance, key)`: the value the attribute lookup protocol produces,
or an `AttributeError`. -/
def pyGetattr (getattrs : List (String × PValue)) (key : String) :
    Except PyError (Option PValue) :=
  match getattrs.lookup key with
  | some v => .ok (some v)
  | none => .error (.attributeError key)

/-- The value-resolution step of `sa_pluck` for one key: the `instance_dict`, the
descriptor attributes, then the unloaded policy (`.ok none` means the key is skipped,
as the `SKIP` policy does with `continue`). -/
def getValue (meta : ModelMeta) (dict_ getattrs : List (String × PValue))
    (key : String) (unloaded : Unloaded) : Except PyError (Option PValue) :=
  match dict_.lookup key with
  | some v => .ok (some v)
  | none =>
    if meta.descriptors.contains key then pyGetattr getattrs key
    else
      match unloaded with
      | .NONE => .ok (some .vNone)
      | .LAZY => pyGetattr getattrs key
      | .LAZYWARN => pyGetattr getattrs key
      | .SKIP => .ok none
      | .RAISE => .error (.attributeError key)

/-- Embeds `pluck_dict` (pluck.py): pluck a plain dict; excluded and missing keys are
dropped, nested dict selections recurse, anything else is copied as is. -/
def pluck_dict (value : List (String × PValue)) :
    List (String × PluckVal) → List (String × PValue)
  | [] => []
  | (key, inc) :: rest =>
    let restRet := pluck_dict value rest
    if includeIsZero inc then restRet
    else
      match value.lookup key with
      | none => restRet
      | some v =>
        match inc, v with
        | .nested imap, .vDict ventries => (key, .vDict (pluck_dict ventries imap)) :: restRet
        | _, _ => (key, v) :: restRet

mutual

/-- Embeds `sa_pluck` (pluck.py): walk the plucking map in order; skip excluded keys;
resolve each value through `getValue`; recurse through relationships and plain dicts. -/
def sa_pluck (meta : ModelMeta) (dict_ getattrs : List (String × PValue))
    (map : List (String × PluckVal)) (unloaded : Unloaded) :
    Except PyError (List (String × PValue)) :=
  match map with
  | [] => .ok []
  | (key, inc) :: rest =>
    if includeIsZero inc then sa_pluck meta dict_ getattrs rest unloaded
    else
      match getValue meta dict_ getattrs key unloaded with
      | .error e => .error e
      | .ok none => sa_pluck meta dict_ getattrs rest unloaded
      | .ok (some value) =>
        let out : Except PyError PValue :=
          match meta.relUselist.lookup key with
          | some uselist =>
            match value with
            | .vNone => .ok (if uselist then PValue.vList [] else PValue.vNone)
            | _ =>
              if !includeTruthy inc && uselist then .ok (PValue.vList [])
              else pluck_relationship key uselist value inc unloaded
          | none =>
            match value, inc with
            | .vDict entries, .nested imap => .ok (PValue.vDict (pluck_dict entries imap))
            | _, _ => .ok value
        match out with
        | .error e => .error e
        | .ok outv =>
          match sa_pluck meta dict_ getattrs rest unloaded with
          | .error e => .error e
          | .ok restRet => .ok ((key, outv) :: restRet)
termination_by (sizeOf map, 0)

/-- Embeds `pluck_relationship` (pluck.py): recurse into a to-one value, or map the
recursion over a to-many collection.  A flag used for a relationship makes the nested
`sa_pluck` call `map.items()` on an int, i.e. an `AttributeError`; a value that is not
a mapped instance fails `class_mapper`. -/
def pluck_relationship (key : String) (uselist : Bool) (value : PValue)
    (map : PluckVal) (unloaded : Unloaded) : Except PyError PValue :=
  match map with
  | .flag _ => .error (.attributeError "items")
  | .nested entries =>
    if !uselist then
      match value with
      | .vObj m d g =>
        match sa_pluck m d g entries unloaded with
        | .ok r => .ok (.vDict r)
        | .error e => .error e
      | _ => .error (.typeError "not a mapped instance")
    else
      match value with
      | .vList items =>
        match pluckItems entries items unloaded with
        | .ok rs => .ok (.vList rs)
        | .error e => .error e
      | _ => .error (.typeError "not an iterable of instances")
termination_by (sizeOf map, 1)

/-- The list comprehension in `pluck_relationship`: pluck every item of a to-many
collection with the same nested map. -/
def pluckItems (entries : List (String × PluckVal)) (items : List PValue)
    (unloaded : Unloaded) : Except PyError (List PValue) :=
  match items with
  | [] => .ok []
  | item :: restItems =>
    match item with
    | .vObj m d g =>
      match sa_pluck m d g entries unloaded with
      | .error e => .error e
      | .ok r =>
        match pluckItems entries restItems unloaded with
        | .error e => .error e
        | .ok rs => .ok (.vDict r :: rs)
    | _ => .error (.typeError "not a mapped instance")
termination_by (sizeOf entries, sizeOf items + 2)

end

/- ### Concrete fixtures

Small concrete models and instances, mirroring the shapes used in the library's
own test-suite (tests/test_pluck.py, tests/test_sa_extract_info.py). -/

/-- A non-nullable string column with `default="active"`: SqlAlchemy stores the
default wrapped in a `ColumnDefault`. -/
def statusColumn : ColumnAttr :=
  { nullable := false, default := .columnDefault (.value "active"),
    sa_type := .typed .strT, doc := none }

/-- A nullable string column with no declared default. -/
def nameColumn : ColumnAttr :=
  { nullable := true, default := .pyNone, sa_type := .typed .strT, doc := none }

/-- A non-nullable integer primary-key column with no declared default. -/
def idColumn : ColumnAttr :=
  { nullable := false, default := .pyNone, sa_type := .typed .intT, doc := none }

/-- A `@property` with a getter that has no return annotation and no setter. -/
def unannotatedProperty : PropertyAttr :=
  { fget := some none, fset := none, doc := none }

/-- A `@property` with an int-annotated getter and a setter. -/
def rwProperty : PropertyAttr :=
  { fget := some (some .intT), fset := some none, doc := none }

/-- A to-many relationship whose declared collection class is an unrecognized
callable that cannot be instantiated with no arguments. -/
def weirdCollectionRel : RelAttr :=
  { target := "Article", uselist := true,
    collection_class := some (.callableC none), viewonly := false, doc := none }

/-- A model with the `id` / `name` / `status` columns, the read-write property and a
to-many relationship, plus one attribute that no strategy recognizes. -/
def exUser : SAModel :=
  { id := "User"
    attrs :=
      [ ("id", .column idColumn),
        ("name", .column nameColumn),
        ("status", .column statusColumn),
        ("prop", .prop rwProperty),
        ("articles", .relationship
          { target := "Article", uselist := true, collection_class := none,
            viewonly := false, doc := none }),
        ("weird", .unsupported) ] }

/-- The pluck-time metadata of the `User` test model: one to-many relationship
`articles`, one descriptor attribute `prop`. -/
def userMeta : ModelMeta :=
  { relUselist := [("articles", true)], descriptors := ["prop"] }

/-- `instance_dict` of a `User` instance whose `articles` are not loaded. -/
def userDict : List (String × PValue) :=
  [("id", .vInt 17), ("name", .vStr "John")]

/-- What `getattr` can reach on that instance (the descriptor `prop` computes a
value; `articles` would need a database fetch and is absent here). -/
def userGetattrs : List (String × PValue) :=
  [("id", .vInt 17), ("name", .vStr "John"), ("prop", .vStr "hey")]

/-- The pluck-time metadata of the `Article` test model: a to-one `author`. -/
def articleMeta : ModelMeta :=
  { relUselist := [("author", false)], descriptors := [] }

/-- A `User` instance value without its articles, used as a loaded `author`. -/
def userObjSmall : PValue := .vObj userMeta [("id", .vInt 17)] []

/-- A loaded `Article` instance value. -/
def article1 : PValue :=
  .vObj articleMeta [("id", .vInt 100), ("title", .vStr "Python")] []

/-- `instance_dict` of a `User` instance whose `articles` list is loaded. -/
def userLoadedDict : List (String × PValue) :=
  [("id", .vInt 17), ("articles", .vList [article1])]

/-- `instance_dict` of an `Article` instance whose `author` is loaded. -/
def articleDict : List (String × PValue) :=
  [("id", .vInt 100), ("author", userObjSmall)]

/- ### Helper lemmas -/

/-- No registered strategy matches an unsupported attribute. -/
theorem matches_unsupported (ic : InfoClass) (types : Nat) :
    ic.matches .unsupported types = false := by
  cases ic <;> rfl

/-- The type produced by `wrap_type_into_collection_class` is never Optional. -/
theorem is_Optional_wrap : ∀ (vt : PyType) (c : CollClass),
    is_Optional_type (wrap_type_into_collection_class vt c).2 = false
  | _, .listC => rfl
  | _, .setC => rfl
  | _, .dictC => rfl
  | vt, .callableC (some c) => is_Optional_wrap vt c
  | _, .callableC none => rfl

/-- Looking a key up past a prefix that does not contain it. -/
theorem lookup_append_of_none {α β : Type} [BEq α] (k : α) :
    ∀ (l1 l2 : List (α × β)), l1.lookup k = none → (l1 ++ l2).lookup k = l2.lookup k
  | [], _, _ => rfl
  | (a, b) :: rest, l2, h => by
    by_cases hk : (k == a) = true
    · simp [List.lookup, hk] at h
    · simp [List.lookup, hk] at h ⊢
      exact lookup_append_of_none k rest l2 h

/-- Reduction of an `Except` bind on a success value. -/
theorem exceptBind_ok {α β : Type} (a : α) (f : α → Except PyError β) :
    (Except.ok a : Except PyError α) >>= f = f a := rfl

/-- Reduction of an `Except` bind on an error value. -/
theorem exceptBind_error {α β : Type} (e : PyError) (f : α → Except PyError β) :
    (Except.error e : Except PyError α) >>= f = .error e := rfl

/- ## The claims -/

/-- C1: for every column attribute, a `ColumnDefault` wrapper is unwrapped to its bare
value; a callable or SQL-expression default becomes NOT_PROVIDED; a null default on a
non-nullable column becomes NOT_PROVIDED; hence for every ColumnDescriptor,
`nullable=False` implies the default is never null, and `nullable=True` with no
declared default yields a null default. -/
theorem column_default_resolution (attr : ColumnAttr) :
    (∀ b : BareDefault,
      resolveColumnDefault attr.nullable (.columnDefault b)
        = resolveColumnDefault attr.nullable (.bare b))
    ∧ resolveColumnDefault attr.nullable (.bare .callableV) = .notProvided
    ∧ resolveColumnDefault attr.nullable (.bare .columnElement) = .notProvided
    ∧ resolveColumnDefault attr.nullable (.bare .selectable) = .notProvided
    ∧ (attr.nullable = false →
        resolveColumnDefault attr.nullable (.bare .pyNone) = .notProvided)
    ∧ ((ColumnInfo.extract attr).nullable = false →
        (ColumnInfo.extract attr).default ≠ .pyNone)
    ∧ ((ColumnInfo.extract attr).nullable = true → attr.default = .pyNone →
        (ColumnInfo.extract attr).default = .pyNone) := by
  obtain ⟨nb, d, st, doc⟩ := attr
  refine ⟨fun b => rfl, rfl, rfl, rfl, ?_, ?_, ?_⟩
  · intro h
    subst h
    rfl
  · intro h
    simp only [ColumnInfo.extract] at h ⊢
    subst h
    cases d with
    | pyNone => simp [resolveColumnDefault]
    | columnDefault arg => cases arg <;> simp [resolveColumnDefault]
    | bare v => cases v <;> simp [resolveColumnDefault]
  · intro h1 h2
    simp only [ColumnInfo.extract] at h1 ⊢
    subst h1
    subst h2
    rfl

/-- C1 witness: the `status` and `name` columns of the test model.  `status` is
non-nullable with a wrapped concrete default; `name` is nullable with no declared
default and resolves to a null default. -/
theorem column_default_resolution_witness :
    ((ColumnInfo.extract statusColumn).default ≠ .pyNone
      ∧ (ColumnInfo.extract nameColumn).default = .pyNone)
    ∧ (ColumnInfo.extract statusColumn).default = .value "active" :=
  ⟨⟨(column_default_resolution statusColumn).2.2.2.2.2.1 rfl,
    (column_default_resolution nameColumn).2.2.2.2.2.2 rfl rfl⟩, rfl⟩

/-- C9: for every bound filter and every name, `NOT (NOT f)` matches exactly when `f`
does, `AND` of no filters matches every name, and `EITHER` of no filters matches none. -/
theorem filter_composition_laws (f : Filter) (name : String) :
    Filter.matches (.NOT [.NOT [f]]) name = Filter.matches f name
    ∧ Filter.matches (.AND []) name = true
    ∧ Filter.matches (.EITHER []) name = false := by
  refine ⟨?_, rfl, rfl⟩
  cases h : Filter.matches f name <;>
    simp [Filter.matches, Filter.allMatches, h]

/-- C8: a to-many relationship with an unrecognized collection class falls back to
instantiating the class and classifying the result; if the instantiation fails, the
value type degrades to `Union[List[target], Dict[Any, target]]`, and the relationship
extractor still produces a descriptor (no error). -/
theorem collection_class_fallback (vt : PyType) (c : CollClass) (r : RelAttr) :
    wrap_type_into_collection_class vt (.callableC (some c))
      = wrap_type_into_collection_class vt c
    ∧ wrap_type_into_collection_class vt (.callableC none)
      = (none, .unionT [.listT vt, .dictT .anyT vt])
    ∧ (r.uselist = true → r.collection_class = some (.callableC none) →
        (RelationshipInfo.extract r).value_type
          = .unionT [.listT (.klass r.target), .dictT .anyT (.klass r.target)]
        ∧ (RelationshipInfo.extract r).default_factory = none) := by
  refine ⟨rfl, rfl, fun hu hc => ?_⟩
  obtain ⟨t, ul, cc, vo, doc⟩ := r
  simp only at hu hc
  subst hu
  subst hc
  exact ⟨rfl, rfl⟩

/-- C8 witness: the fallback at a concrete to-many relationship whose collection class
is an unrecognized callable that cannot be instantiated. -/
theorem collection_class_fallback_witness :
    (RelationshipInfo.extract weirdCollectionRel).value_type
      = .unionT [.listT (.klass "Article"), .dictT .anyT (.klass "Article")] :=
  ((collection_class_fallback .intT .listC weirdCollectionRel).2.2 rfl rfl).1

/-- C2 counterexample: the descriptor extracted from a `@property` whose getter has no
return annotation has `nullable=True` and `value_type=Any`, but its externally visible
type is `Any` itself, not the optional-wrapped `Union[Any, None]` (the code path
`self.value_type is not Any` deliberately skips the wrapping). -/
theorem optional_wrapping_counterexample :
    (PropertyInfo.extract unannotatedProperty).map (fun i => i.nullable) = .ok true
    ∧ (PropertyInfo.extract unannotatedProperty).map AttributeInfoS.final_value_type
        = .ok PyType.anyT
    ∧ (PropertyInfo.extract unannotatedProperty).map (fun i => optionalOf i.value_type)
        = .ok (PyType.unionT [PyType.anyT, PyType.noneT])
    ∧ PyType.anyT ≠ PyType.unionT [PyType.anyT, PyType.noneT] :=
  ⟨rfl, rfl, rfl, fun h => PyType.noConfusion h⟩

/-- C2 (amended): for every descriptor that is not a to-many relationship, if
`nullable=True` AND the value type is not `Any`, the externally visible type is the
optional-wrapped value type (when `nullable=False` or the value type is `Any` it is
the value type unchanged); the externally visible type of a to-many relationship
descriptor is its value type and is never optional-wrapped, for any collection class. -/
theorem optional_wrapping_invariant (i : AttributeInfoS) (r : RelationshipInfoS)
    (attr : RelAttr) :
    (i.nullable = true → i.value_type.isAny = false →
      i.final_value_type = optionalOf i.value_type)
    ∧ ((i.nullable = false ∨ i.value_type.isAny = true) →
      i.final_value_type = i.value_type)
    ∧ (r.uselist = true → r.final_value_type = r.value_type)
    ∧ (attr.uselist = true →
      (RelationshipInfo.extract attr).final_value_type
          = (RelationshipInfo.extract attr).value_type
        ∧ is_Optional_type (RelationshipInfo.extract attr).final_value_type = false) := by
  refine ⟨?_, ?_, ?_, ?_⟩
  · intro h1 h2
    simp [AttributeInfoS.final_value_type, h1, h2]
  · intro h
    rcases h with h | h <;> simp [AttributeInfoS.final_value_type, h]
  · intro h
    simp [RelationshipInfoS.final_value_type, h]
  · intro h
    obtain ⟨t, ul, cc, vo, doc⟩ := attr
    simp only at h
    subst h
    refine ⟨rfl, ?_⟩
    show is_Optional_type (relWrapValueType true _ _).2 = false
    cases cc with
    | some c => exact is_Optional_wrap _ c
    | none => exact is_Optional_wrap _ .listC

/-- C2 witness: the invariant applied to the `name` column descriptor (nullable
string, wrapped to `Optional[str]`) and to an extracted to-many relationship. -/
theorem optional_wrapping_invariant_witness :
    (ColumnInfo.extract nameColumn).final_value_type
      = PyType.unionT [PyType.strT, PyType.noneT]
    ∧ (RelationshipInfo.extract weirdCollectionRel).final_value_type
        = (RelationshipInfo.extract weirdCollectionRel).value_type := by
  refine ⟨?_, ?_⟩
  · have h := (optional_wrapping_invariant (ColumnInfo.extract nameColumn)
      (RelationshipInfo.extract weirdCollectionRel) weirdCollectionRel).1 rfl rfl
    exact h.trans rfl
  · exact ((optional_wrapping_invariant (ColumnInfo.extract nameColumn)
      (RelationshipInfo.extract weirdCollectionRel) weirdCollectionRel).2.2.2 rfl).1

/-- C6 counterexample: a property with both a getter and a setter is extracted with
the stored tag `PROPERTY_RW`, which is the two-bit union `PROPERTY_R | PROPERTY_W`,
not a single primitive kind bit. -/
theorem stored_tag_counterexample :
    (PropertyInfo.extract rwProperty).map (fun i => i.attribute_type)
      = .ok AttributeType.PROPERTY_RW
    ∧ isSingleBit AttributeType.PROPERTY_RW = false
    ∧ AttributeType.PROPERTY_RW = AttributeType.PROPERTY_R ||| AttributeType.PROPERTY_W :=
  ⟨rfl, rfl, rfl⟩

/-- C6 (amended): every extractor stores the most specific applicable kind as the tag;
for all non-property kinds that is a single primitive bit, while a plain or hybrid
property that is both readable and writable stores the combined two-bit
readable-and-writable union (`PROPERTY_RW` / `HYBRID_PROPERTY_RW`), and a read-only
one stores the single readable bit. -/
theorem stored_tag_most_specific (c : ColumnAttr) (p q : PropertyAttr)
    (m : HybridMethodAttr) (e : ExpressionAttr) (cp : CompositeAttr) (r s : RelAttr)
    (a : AssocProxyAttr) :
    (ColumnInfo.extract c).attribute_type = AttributeType.COLUMN
    ∧ (p.fget.isSome = true → p.fset.isSome = true →
        (PropertyInfo.extract p).map (fun i => (i.attribute_type, i.readable, i.writable))
          = .ok (AttributeType.PROPERTY_RW, true, true))
    ∧ (p.fget.isSome = true → p.fset.isSome = false →
        (PropertyInfo.extract p).map (fun i => (i.attribute_type, i.readable, i.writable))
          = .ok (AttributeType.PROPERTY_R, true, false))
    ∧ (q.fget.isSome = true → q.fset.isSome = true →
        (HybridPropertyInfo.extract q).map (fun i => (i.attribute_type, i.readable, i.writable))
          = .ok (AttributeType.HYBRID_PROPERTY_RW, true, true))
    ∧ (q.fget.isSome = true → q.fset.isSome = false →
        (HybridPropertyInfo.extract q).map (fun i => (i.attribute_type, i.readable, i.writable))
          = .ok (AttributeType.HYBRID_PROPERTY_R, true, false))
    ∧ (HybridMethodInfo.extract m).attribute_type = AttributeType.HYBRID_METHOD
    ∧ (ColumnExpressionInfo.extract e).attribute_type = AttributeType.EXPRESSION
    ∧ (CompositeInfo.extract cp).attribute_type = AttributeType.COMPOSITE
    ∧ (RelationshipInfo.extract r).attribute_type = AttributeType.RELATIONSHIP
    ∧ (DynamicLoaderInfo.extract s).attribute_type = AttributeType.DYNAMIC_LOADER
    ∧ (AssociationProxyInfo.extract a).attribute_type = AttributeType.ASSOCIATION_PROXY
    ∧ (isSingleBit AttributeType.COLUMN = true
        ∧ isSingleBit AttributeType.HYBRID_METHOD = true
        ∧ isSingleBit AttributeType.EXPRESSION = true
        ∧ isSingleBit AttributeType.COMPOSITE = true
        ∧ isSingleBit AttributeType.RELATIONSHIP = true
        ∧ isSingleBit AttributeType.DYNAMIC_LOADER = true
        ∧ isSingleBit AttributeType.ASSOCIATION_PROXY = true
        ∧ isSingleBit AttributeType.PROPERTY_R = true
        ∧ isSingleBit AttributeType.PROPERTY_W = true
        ∧ isSingleBit AttributeType.HYBRID_PROPERTY_R = true
        ∧ isSingleBit AttributeType.HYBRID_PROPERTY_W = true) := by
  obtain ⟨g, st, doc⟩ := p
  obtain ⟨g2, st2, doc2⟩ := q
  refine ⟨rfl, ?_, ?_, ?_, ?_, rfl, rfl, rfl, rfl, rfl, rfl,
    rfl, rfl, rfl, rfl, rfl, rfl, rfl, rfl, rfl, rfl, rfl⟩ <;>
    intro h1 h2
  · cases g with
    | none => cases h1
    | some gt => cases st with
      | none => cases h2
      | some sd => cases gt <;> rfl
  · cases g with
    | none => cases h1
    | some gt => cases st with
      | some sd => cases h2
      | none => cases gt <;> rfl
  · cases g2 with
    | none => cases h1
    | some gt => cases st2 with
      | none => cases h2
      | some sd => cases gt <;> rfl
  · cases g2 with
    | none => cases h1
    | some gt => cases st2 with
      | some sd => cases h2
      | none => cases gt <;> rfl

/-- C6 witness: the amended tag rule applied to the concrete read-write property and
the concrete column of the test model. -/
theorem stored_tag_most_specific_witness :
    ((ColumnInfo.extract idColumn).attribute_type = AttributeType.COLUMN)
    ∧ ((PropertyInfo.extract rwProperty).map
        (fun i => (i.attribute_type, i.readable, i.writable))
        = .ok (AttributeType.PROPERTY_RW, true, true)) :=
  ⟨(stored_tag_most_specific idColumn rwProperty rwProperty
      ⟨none, none⟩ ⟨.typed .intT, none⟩ ⟨"Point", none⟩ weirdCollectionRel
      weirdCollectionRel ⟨"A", .typed .strT, none, true⟩).1,
    (stored_tag_most_specific idColumn rwProperty rwProperty
      ⟨none, none⟩ ⟨.typed .intT, none⟩ ⟨"Point", none⟩ weirdCollectionRel
      weirdCollectionRel ⟨"A", .typed .strT, none, true⟩).2.1 rfl rfl⟩

/-- C5: extracting model info twice for the same model and the same requested kinds,
through the cached entry point, produces equal name-to-descriptor mappings (and leaves
the cache unchanged after the first call); starting with no cached entry, the first
result is exactly the uncached extraction. -/
theorem extraction_idempotent (cache : InfoCache) (M : SAModel) (types : Nat) :
    (sa_model_info_cached cache M types).1
      = (sa_model_info_cached (sa_model_info_cached cache M types).2 M types).1
    ∧ (sa_model_info_cached cache M types).2
      = (sa_model_info_cached (sa_model_info_cached cache M types).2 M types).2
    ∧ (cache.entries.lookup (M.id, types) = none →
        (sa_model_info_cached cache M types).1 = sa_model_info_uncached M types) := by
  cases h : cache.entries.lookup (M.id, types) with
  | some r =>
    refine ⟨?_, ?_, ?_⟩
    · simp [sa_model_info_cached, h]
    · simp [sa_model_info_cached, h]
    · intro hn
      simp at hn
  | none =>
    cases hr : sa_model_info_uncached M types with
    | ok r =>
      have hlk : (cache.entries ++ [((M.id, types), r)]).lookup (M.id, types) = some r := by
        rw [lookup_append_of_none _ _ _ h]
        simp [List.lookup]
      refine ⟨?_, ?_, ?_⟩
      · simp [sa_model_info_cached, h, hr, hlk]
      · simp [sa_model_info_cached, h, hr, hlk]
      · intro _
        simp [sa_model_info_cached, h, hr]
    | error e =>
      refine ⟨?_, ?_, ?_⟩
      · simp [sa_model_info_cached, h, hr]
      · simp [sa_model_info_cached, h, hr]
      · intro _
        simp [sa_model_info_cached, h, hr]

/-- C5 witness: the idempotence facts at the concrete test model with all kinds
requested, starting from the empty cache. -/
theorem extraction_idempotent_witness :
    (sa_model_info_cached ⟨[]⟩ exUser AttributeType.ALL).1
      = (sa_model_info_cached (sa_model_info_cached ⟨[]⟩ exUser AttributeType.ALL).2
          exUser AttributeType.ALL).1
    ∧ (sa_model_info_cached ⟨[]⟩ exUser AttributeType.ALL).1
        = sa_model_info_uncached exUser AttributeType.ALL :=
  ⟨(extraction_idempotent ⟨[]⟩ exUser AttributeType.ALL).1,
    (extraction_idempotent ⟨[]⟩ exUser AttributeType.ALL).2.2 rfl⟩

/-- C7: a raw attribute that no registered strategy claims is silently dropped by the
bulk extraction (removing it from the attribute list does not change the result, and
no error is raised for it), while the single-attribute lookup, after trying every
registered strategy in turn, raises the descriptive error of the source's
`raise AttributeType(...)` line. -/
theorem unsupported_attribute_handling (types : Nat) (pre post : List (String × RawAttr))
    (name id0 : String) (M : SAModel) :
    sa_model_info_uncached ⟨id0, pre ++ (name, .unsupported) :: post⟩ types
      = sa_model_info_uncached ⟨id0, pre ++ post⟩ types
    ∧ (M.attrs.lookup name = some .unsupported →
        sa_attribute_info M name = .error (.valueError
          ("Attribute " ++ name ++ " has a type that is not currently supported"))) := by
  constructor
  · have key : ∀ ics : List InfoClass,
        modelInfoPairs ics types (pre ++ (name, .unsupported) :: post)
          = modelInfoPairs ics types (pre ++ post) := by
      intro ics
      induction pre with
      | nil =>
        simp only [List.nil_append, modelInfoPairs]
        have hf : ics.filter (fun ic => ic.matches .unsupported types) = [] :=
          List.filter_eq_nil_iff.mpr (fun ic _ => by simp [matches_unsupported])
        rw [hf]
        cases hpost : modelInfoPairs ics types post <;>
          simp [List.mapM, List.mapM.loop, hpost, exceptBind_ok, exceptBind_error]
      | cons hd tl ih =>
        obtain ⟨n0, a0⟩ := hd
        simp only [List.cons_append, modelInfoPairs, List.append_eq]
        rw [ih]
    simp only [sa_model_info_uncached]
    rw [key]
  · intro h
    unfold sa_attribute_info
    rw [h]
    rfl

/-- C7 witness: the asymmetry at the concrete test model, whose attribute `weird` is
not claimed by any strategy: the bulk result equals the one for the model without it,
and the single lookup raises the descriptive error. -/
theorem unsupported_attribute_handling_witness :
    sa_model_info_uncached exUser AttributeType.ALL
      = sa_model_info_uncached
          ⟨"User", (exUser.attrs.take 5)⟩ AttributeType.ALL
    ∧ sa_attribute_info exUser "weird" = .error (.valueError
        ("Attribute weird has a type that is not currently supported")) := by
  constructor
  · exact (unsupported_attribute_handling AttributeType.ALL (exUser.attrs.take 5) []
      "weird" "User" exUser).1
  · exact (unsupported_attribute_handling AttributeType.ALL [] [] "weird" "User"
      exUser).2 rfl

/-- C3 counterexample: plucking a key that exists nowhere on the object, with the
substitute-null policy, succeeds and yields null for that key (the library's own test
asserts exactly this); with the SKIP policy the key is silently omitted.  No lookup
error is raised for these policies. -/
theorem pluck_nonexistent_counterexample :
    sa_pluck userMeta userDict userGetattrs [("INVALID", .flag 1)] .NONE
      = .ok [("INVALID", PValue.vNone)]
    ∧ sa_pluck userMeta userDict userGetattrs [("INVALID", .flag 1)] .SKIP = .ok [] := by
  constructor <;> simp [sa_pluck, getValue, pyGetattr, includeIsZero,
    userMeta, userDict, userGetattrs, List.lookup]

/-- C3 (amended): for a selection-map key that names no attribute of the object at
all, `sa_pluck` raises an AttributeError under the RAISE, LAZY and LAZYWARN policies;
under NONE the key is reported with a null value instead of raising, and under SKIP
it is silently omitted. -/
theorem pluck_nonexistent_by_policy (meta : ModelMeta)
    (dict_ getattrs : List (String × PValue)) (key : String)
    (h1 : dict_.lookup key = none) (h2 : key ∉ meta.descriptors)
    (h3 : getattrs.lookup key = none) (h4 : meta.relUselist.lookup key = none) :
    sa_pluck meta dict_ getattrs [(key, .flag 1)] .RAISE = .error (.attributeError key)
    ∧ sa_pluck meta dict_ getattrs [(key, .flag 1)] .LAZY = .error (.attributeError key)
    ∧ sa_pluck meta dict_ getattrs [(key, .flag 1)] .LAZYWARN
        = .error (.attributeError key)
    ∧ sa_pluck meta dict_ getattrs [(key, .flag 1)] .NONE = .ok [(key, PValue.vNone)]
    ∧ sa_pluck meta dict_ getattrs [(key, .flag 1)] .SKIP = .ok [] := by
  refine ⟨?_, ?_, ?_, ?_, ?_⟩ <;>
    simp [sa_pluck, getValue, pyGetattr, includeIsZero, h1, h2, h3, h4]

/-- C3 witness: the amended policy behavior at the concrete unloaded `User` instance
and the key `INVALID`, which names no attribute of the model. -/
theorem pluck_nonexistent_by_policy_witness :
    sa_pluck userMeta userDict userGetattrs [("INVALID", .flag 1)] .RAISE
      = .error (.attributeError "INVALID")
    ∧ sa_pluck userMeta userDict userGetattrs [("INVALID", .flag 1)] .LAZY
      = .error (.attributeError "INVALID") :=
  ⟨(pluck_nonexistent_by_policy userMeta userDict userGetattrs "INVALID"
      rfl (by decide) rfl rfl).1,
    (pluck_nonexistent_by_policy userMeta userDict userGetattrs "INVALID"
      rfl (by decide) rfl rfl).2.1⟩

/-- C4: plucking a nested selection for a to-many relationship that is not
materialized, under the substitute-null policy, yields an empty list for that key,
never null: the policy substitutes null, and the relationship branch turns a null
to-many value into the empty list. -/
theorem pluck_unloaded_tomany_none (meta : ModelMeta)
    (dict_ getattrs : List (String × PValue)) (rel : String)
    (imap : List (String × PluckVal))
    (h1 : dict_.lookup rel = none) (h2 : rel ∉ meta.descriptors)
    (h3 : meta.relUselist.lookup rel = some true) :
    sa_pluck meta dict_ getattrs [(rel, .nested imap)] .NONE
      = .ok [(rel, PValue.vList [])] := by
  simp [sa_pluck, getValue, includeIsZero, h1, h2, h3]

/-- C4 witness: `sa_pluck(user, {'articles': {'title': 1}}, Unloaded.NONE)` on an
instance whose to-many `articles` relationship is not loaded yields
`{'articles': []}`. -/
theorem pluck_unloaded_tomany_none_witness :
    sa_pluck userMeta userDict userGetattrs
      [("articles", .nested [("title", .flag 1)])] .NONE
      = .ok [("articles", PValue.vList [])] :=
  pluck_unloaded_tomany_none userMeta userDict userGetattrs "articles"
    [("title", .flag 1)] rfl (by decide) rfl

/-- C10: for a loaded to-many relationship, an empty nested selection map yields an
empty list for that key, whatever the collection holds and under every unloaded
policy (its elements are not visited: the result does not depend on `items`); for a
loaded, non-null to-one relationship an empty nested map yields an empty mapping. -/
theorem pluck_empty_nested_map (meta : ModelMeta)
    (dict_ getattrs : List (String × PValue)) (rel : String) (items : List PValue)
    (m2 : ModelMeta) (d2 g2 : List (String × PValue)) (u : Unloaded) :
    (meta.relUselist.lookup rel = some true →
      dict_.lookup rel = some (.vList items) →
      sa_pluck meta dict_ getattrs [(rel, .nested [])] u = .ok [(rel, PValue.vList [])])
    ∧ (meta.relUselist.lookup rel = some false →
      dict_.lookup rel = some (.vObj m2 d2 g2) →
      sa_pluck meta dict_ getattrs [(rel, .nested [])] u
        = .ok [(rel, PValue.vDict [])]) := by
  constructor <;> intro hrel hload <;>
    simp [sa_pluck, getValue, includeIsZero, includeTruthy, pluck_relationship,
      hrel, hload]

/-- C10 witness: a `User` whose three-article collection is loaded plucked with
`{'articles': {}}` yields `{'articles': []}`, and an `Article` whose `author` is
loaded plucked with `{'author': {}}` yields `{'author': {}}`. -/
theorem pluck_empty_nested_map_witness :
    sa_pluck userMeta userLoadedDict [] [("articles", .nested [])] .RAISE
      = .ok [("articles", PValue.vList [])]
    ∧ sa_pluck articleMeta articleDict [] [("author", .nested [])] .RAISE
      = .ok [("author", PValue.vDict [])] :=
  ⟨(pluck_empty_nested_map userMeta userLoadedDict [] "articles" [article1]
      userMeta [] [] .RAISE).1 rfl rfl,
    (pluck_empty_nested_map articleMeta articleDict [] "author" []
      userMeta [("id", .vInt 17)] [] .RAISE).2 rfl rfl⟩

end Sa2Schema
